import Mathlib

/-!
Verification of the SQS producer/worker pair (`producer_sqs.py`, `worker_sqs.py`).

Characters are modelled as Unicode code points (`Nat`), strings as `List Nat`.
Python's `%` on a positive modulus and Lean's `Int.emod` agree, so the shift
arithmetic is embedded directly.
-/

namespace SqsLab

/-- `'A' ≤ c ≤ 'Z'` on code points. -/
def isAsciiUpper (c : Nat) : Bool := 65 ≤ c && c ≤ 90

/-- `'a' ≤ c ≤ 'z'` on code points. -/
def isAsciiLower (c : Nat) : Bool := 97 ≤ c && c ≤ 122

/-- ASCII letter test. -/
def isAsciiLetter (c : Nat) : Bool := isAsciiUpper c || isAsciiLower c

/-- Model of Python's `str.isalpha` on single code points: exact on the ASCII
range; outside ASCII, Python accepts every Unicode alphabetic character, of
which this model lists the sample points used below
(`Ñ` U+00D1, `ñ` U+00F1, `Ж` U+0416, `ж` U+0436). Every claim settled here
depends only on the values at ASCII points and at these listed points. -/
def pyIsAlpha (c : Nat) : Bool :=
  isAsciiLetter c || c == 0xD1 || c == 0xF1 || c == 0x416 || c == 0x436

/-- Model of Python's `str.isupper` on single code points, on the same domain
as `pyIsAlpha`. -/
def pyIsUpper (c : Nat) : Bool := isAsciiUpper c || c == 0xD1 || c == 0x416

/-- One character of `SQSCipherWorker.caesar_cipher` (worker_sqs.py lines
54-60): alphabetic characters get `chr(base + (ord(char) - base + shift) % 26)`
with `base = ord('A')` for upper case and `ord('a')` otherwise; all other
characters pass through. -/
def caesarChar (shift : Int) (c : Nat) : Nat :=
  if pyIsAlpha c then
    let base : Int := if pyIsUpper c then 65 else 97
    let shifted : Int := ((c : Int) - base + shift) % 26
    (base + shifted).toNat
  else c

/-- `SQSCipherWorker.caesar_cipher` (worker_sqs.py lines 42-62). -/
def caesar_cipher (shift : Int) (text : List Nat) : List Nat :=
  text.map (caesarChar shift)

/-- Code points of a Lean string, used to write concrete inputs. -/
def strCodes (s : String) : List Nat := s.data.map Char.toNat

/-- A JSON scalar value as it appears in a message payload. Compound values
(arrays, objects) never occur in the payloads this program builds, so the
model covers the scalar cases the code can meet. -/
inductive JValue where
  | jstr : List Nat → JValue
  | jint : Int → JValue
  | jbool : Bool → JValue
  | jnull : JValue
deriving DecidableEq

/-- A Python dict with string keys, as an insertion-ordered association
list (first binding of a key is its value; keys are unique in practice). -/
abbrev Dict := List (String × JValue)

/-- `payload.get(k)`: value at the first binding of `k`, if any. -/
def dictGet (d : Dict) (k : String) : Option JValue :=
  (d.find? (fun p => p.1 == k)).map (fun p => p.2)

/-- `payload[k] = v`: overwrite the binding in place if the key exists,
otherwise append it. -/
def dictSet (d : Dict) (k : String) (v : JValue) : Dict :=
  if d.any (fun p => p.1 == k) then
    d.map (fun p => if p.1 == k then (k, v) else p)
  else d ++ [(k, v)]

/-- `SQSCipherWorker.process_message` (worker_sqs.py lines 64-83):
reads `payload.get('message', '')`, ciphers it, and writes the five result
keys back into the payload. `now` stands for `datetime.now().isoformat()`.
Returns `none` when the `message` value is present but not a string, in
which case Python's `caesar_cipher` raises `TypeError`. -/
def process_message (shift : Int) (now : List Nat) (payload : Dict) : Option Dict :=
  match (dictGet payload "message").getD (JValue.jstr []) with
  | .jstr original =>
      let encrypted := caesar_cipher shift original
      some (dictSet (dictSet (dictSet (dictSet (dictSet payload
        "original_message" (.jstr original))
        "encrypted_message" (.jstr encrypted))
        "status" (.jstr (strCodes "processed")))
        "processed_at" (.jstr now))
        "cipher_shift" (.jint shift))
  | _ => none

/-- The body of a received message as `json.loads` sees it: either it parses
to a JSON object (`valid`), or `json.loads` raises `JSONDecodeError`
(`malformed`). -/
inductive Body where
  | valid : Dict → Body
  | malformed : Body
deriving DecidableEq

/-- One entry of the `Messages` list returned by `receive_message`:
a body and its opaque `ReceiptHandle` (modelled as a number). -/
structure RawMessage where
  body : Body
  receipt : Nat
deriving DecidableEq

/-- Outcome of one `receive_message` call: a `ClientError`, or a (possibly
empty) list of messages. -/
inductive RecvOutcome where
  | clientError : RecvOutcome
  | messages : List RawMessage → RecvOutcome
deriving DecidableEq

/-- The external world's behaviour during one iteration of the worker loop:
what `receive_message` returns, and whether `delete_message` succeeds if it
is called. -/
structure IterEnv where
  recv : RecvOutcome
  delOk : Bool
deriving DecidableEq

/-- How one `consume_message` call ends: with an uncaught exception
(`raised`, the `TypeError` path out of `process_message`), or with a normal
return value (`ret`). -/
inductive ConsumeRes where
  | raised : ConsumeRes
  | ret : Option Dict → ConsumeRes
deriving DecidableEq

/-- Result of one `consume_message` call: how it ended, the new
`processed_count`, and the receipt handles for which `delete_message` was
invoked (successfully or not). -/
structure ConsumeOut where
  res : ConsumeRes
  count : Nat
  deletes : List Nat
deriving DecidableEq

/-- `SQSCipherWorker.consume_message` (worker_sqs.py lines 85-140):
receive one message; on `ClientError` anywhere in the `try` block return
`None`; on empty receive return `None`; on `JSONDecodeError` delete the
corrupt message (swallowing any failure) and return `None`; otherwise
process, delete, and only after a successful delete increment
`processed_count` and return the processed payload. -/
def consume_message (shift : Int) (now : List Nat) (env : IterEnv) (count : Nat) :
    ConsumeOut :=
  match env.recv with
  | .clientError => ⟨.ret none, count, []⟩
  | .messages ms =>
    match ms with
    | [] => ⟨.ret none, count, []⟩
    | m :: _ =>
      match m.body with
      | .malformed => ⟨.ret none, count, [m.receipt]⟩
      | .valid payload =>
        match process_message shift now payload with
        | none => ⟨.raised, count, []⟩
        | some processed =>
          if env.delOk then ⟨.ret (some processed), count + 1, [m.receipt]⟩
          else ⟨.ret none, count, [m.receipt]⟩

/-- The guard `if max_messages and self.processed_count >= max_messages`
(worker_sqs.py line 173), with Python truthiness: `None` and `0` are both
falsy, so neither ever triggers the cutoff. -/
def limitHit (maxMessages : Option Nat) (count : Nat) : Bool :=
  match maxMessages with
  | none => false
  | some m => m != 0 && count ≥ m

/-- Python truthiness of `consume_message`'s return value as tested by
`if result:` (worker_sqs.py line 180): `None` and the empty dict are falsy. -/
def resTruthy (r : Option Dict) : Bool :=
  match r with
  | none => false
  | some d => !d.isEmpty

/-- Why a run of the worker loop ended. `scriptEnd` truncates a run that
would keep looping once the modelled environment script is exhausted. -/
inductive StopReason where
  | limitReached : StopReason
  | noMessages : StopReason
  | scriptEnd : StopReason
  | crashed : StopReason
deriving DecidableEq

/-- Observable outcome of a worker-loop run: final `processed_count`, the
number of `receive_message` calls issued, and why the loop ended. -/
structure RunOut where
  count : Nat
  receives : Nat
  reason : StopReason
deriving DecidableEq

/-- The `while True` loop of `SQSCipherWorker.start` (worker_sqs.py lines
170-189): check the cutoff guard, call `consume_message`, and on a falsy
result break when not in continuous mode. One `IterEnv` of the script is
consumed per iteration; each iteration issues exactly one receive call. -/
def runWorker (shift : Int) (now : List Nat) (continuous : Bool)
    (maxMessages : Option Nat) (script : List IterEnv) (count receives : Nat) :
    RunOut :=
  match script with
  | [] =>
      if limitHit maxMessages count then ⟨count, receives, .limitReached⟩
      else ⟨count, receives, .scriptEnd⟩
  | env :: rest =>
      if limitHit maxMessages count then ⟨count, receives, .limitReached⟩
      else
        let out := consume_message shift now env count
        match out.res with
        | .raised => ⟨out.count, receives + 1, .crashed⟩
        | .ret r =>
          if resTruthy r then
            runWorker shift now continuous maxMessages rest out.count (receives + 1)
          else
            if continuous then
              runWorker shift now continuous maxMessages rest out.count (receives + 1)
            else ⟨out.count, receives + 1, .noMessages⟩

/-- The payload built by the producer for each message
(producer_sqs.py lines 71-75 and 113-117). -/
def mkPayload (now msg : List Nat) : Dict :=
  [("message", .jstr msg), ("timestamp", .jstr now),
   ("status", .jstr (strCodes "pending"))]

/-- One entry of a `send_message_batch` request: `Id` and the serialized
`MessageBody`. -/
structure BatchEntry where
  id : String
  body : Dict
deriving DecidableEq

/-- The entry list `SQSMessageProducer.send_batch` builds (producer_sqs.py
lines 111-121): one entry per input message, `Id = str(idx)`. -/
def send_batch_entries (now : List Nat) (messages : List (List Nat)) :
    List BatchEntry :=
  messages.enum.map (fun p => ⟨toString p.1, mkPayload now p.2⟩)

/-- The sequence of `send_message_batch` requests `send_batch` issues for a
given input: a single call carrying every entry (producer_sqs.py lines
123-126); the code never chunks the input. -/
def send_batch_calls (now : List Nat) (messages : List (List Nat)) :
    List (List BatchEntry) :=
  [send_batch_entries now messages]

/-- The `Successful` and `Failed` entry-id lists of a `send_message_batch`
response. -/
structure BatchResponse where
  successful : List String
  failed : List String
deriving DecidableEq

/-- Outcome of one `send_message_batch` service call: a response, or a
`ClientError`. -/
inductive BatchCallOutcome where
  | ok : BatchResponse → BatchCallOutcome
  | clientError : BatchCallOutcome

/-- The value `send_batch` hands back on `ClientError`: `return {}`, a dict
with no `Successful` and no `Failed` entries. -/
def emptyBatchResponse : BatchResponse := ⟨[], []⟩

/-- `SQSMessageProducer.send_batch` (producer_sqs.py lines 100-137): build
the entries, issue one `send_message_batch` call (`service` models the
queue service's reaction to the submitted entries), pass the response
through, and on `ClientError` return `{}`. -/
def send_batch (now : List Nat) (service : List BatchEntry → BatchCallOutcome)
    (messages : List (List Nat)) : BatchResponse :=
  match service (send_batch_entries now messages) with
  | .ok resp => resp
  | .clientError => emptyBatchResponse

/-- The error code `_get_or_create_queue` tests for
(producer_sqs.py line 43). -/
def nonExistentQueueCode : String := "AWS.SimpleQueueService.NonExistentQueue"

/-- Outcome of the `get_queue_url` lookup: a URL, or a `ClientError`
carrying `e.response['Error']['Code']`. -/
inductive LookupOutcome where
  | found : String → LookupOutcome
  | err : String → LookupOutcome
deriving DecidableEq

/-- `SQSMessageProducer._get_or_create_queue` (producer_sqs.py lines 28-58):
on a successful lookup return the URL; on `ClientError` with exactly the
non-existent-queue code call `create_queue` (whose URL is `createUrl`);
any other `ClientError` is re-raised (`Except.error`). The `Bool` records
whether `create_queue` was called. -/
def get_or_create_queue (lookup : LookupOutcome) (createUrl : String) :
    Except String String × Bool :=
  match lookup with
  | .found url => (.ok url, false)
  | .err code =>
      if code = nonExistentQueueCode then (.ok createUrl, true)
      else (.error code, false)

/-- A concrete payload as the producer would enqueue it, with an extra
`timestamp` field, used to exercise `process_message` on a closed input. -/
def payloadW : Dict :=
  [("message", .jstr (strCodes "Hola")), ("timestamp", .jstr (strCodes "2024"))]

/-- The payload `process_message` returns for `payloadW` at shift 3. -/
def processedW : Dict := (process_message 3 (strCodes "now") payloadW).getD []

/-- An iteration in which the queue hands over one unparsable message. -/
def envMalformed : IterEnv := ⟨.messages [⟨.malformed, 9⟩], true⟩

/-- An iteration in which one well-formed message arrives but
`delete_message` fails with a `ClientError`. -/
def envDelFail : IterEnv := ⟨.messages [⟨.valid payloadW, 7⟩], false⟩

/-- An iteration in which one well-formed message arrives and its delete
succeeds. -/
def envGood : IterEnv := ⟨.messages [⟨.valid payloadW, 8⟩], true⟩

/-- A queue service that accepts every batch and reports entry "0"
successful. -/
def serviceW : List BatchEntry → BatchCallOutcome := fun _ => .ok ⟨["0"], []⟩

/-! ### Helper lemmas about the cipher -/

theorem caesarChar_not_alpha (k : Int) (c : Nat) (h : pyIsAlpha c = false) :
    caesarChar k c = c := by
  simp [caesarChar, h]

theorem caesarChar_upper (k : Int) (c : Nat) (h : isAsciiUpper c = true) :
    caesarChar k c = (65 + ((c : Int) - 65 + k) % 26).toNat := by
  have ha : pyIsAlpha c = true := by simp [pyIsAlpha, isAsciiLetter, h]
  have hu : pyIsUpper c = true := by simp [pyIsUpper, h]
  simp [caesarChar, ha, hu]

theorem caesarChar_lower (k : Int) (c : Nat) (h : isAsciiLower c = true) :
    caesarChar k c = (97 + ((c : Int) - 97 + k) % 26).toNat := by
  have ha : pyIsAlpha c = true := by simp [pyIsAlpha, isAsciiLetter, h]
  have hu : pyIsUpper c = false := by
    simp [pyIsUpper, isAsciiUpper]
    simp [isAsciiLower] at h
    omega
  simp [caesarChar, ha, hu]

theorem caesarChar_upper_mem (k : Int) (c : Nat) (h : isAsciiUpper c = true) :
    isAsciiUpper (caesarChar k c) = true := by
  rw [caesarChar_upper k c h]
  simp [isAsciiUpper] at h ⊢
  omega

theorem caesarChar_lower_mem (k : Int) (c : Nat) (h : isAsciiLower c = true) :
    isAsciiLower (caesarChar k c) = true := by
  rw [caesarChar_lower k c h]
  simp [isAsciiLower] at h ⊢
  omega

theorem caesarChar_roundtrip_upper (k : Int) (c : Nat) (h : isAsciiUpper c = true) :
    caesarChar (-k) (caesarChar k c) = c := by
  have h1 := caesarChar_upper k c h
  have h2 := caesarChar_upper_mem k c h
  rw [caesarChar_upper (-k) _ h2, h1]
  simp [isAsciiUpper] at h
  omega

theorem caesarChar_roundtrip_lower (k : Int) (c : Nat) (h : isAsciiLower c = true) :
    caesarChar (-k) (caesarChar k c) = c := by
  have h1 := caesarChar_lower k c h
  have h2 := caesarChar_lower_mem k c h
  rw [caesarChar_lower (-k) _ h2, h1]
  simp [isAsciiLower] at h
  omega

theorem caesarChar_roundtrip_ascii (k : Int) (c : Nat) (h : c < 128) :
    caesarChar (-k) (caesarChar k c) = c := by
  by_cases ha : pyIsAlpha c = true
  · have : isAsciiUpper c = true ∨ isAsciiLower c = true := by
      simp [pyIsAlpha, isAsciiLetter, isAsciiUpper, isAsciiLower] at ha ⊢
      omega
    rcases this with hu | hl
    · exact caesarChar_roundtrip_upper k c hu
    · exact caesarChar_roundtrip_lower k c hl
  · rw [caesarChar_not_alpha k c (by simpa using ha),
      caesarChar_not_alpha (-k) c (by simpa using ha)]

/-! ### C1: ciphering with shift k then shift -k -/

/-- C1 (counterexample): the claim "caesar_cipher with shift k followed by
caesar_cipher with shift -k is the identity on strings" fails at the
one-character string "ñ" (U+00F1) with k = 3: Python's `isalpha` accepts
`ñ` but the code shifts it from base `ord('a')`, producing `'r'`, and the
inverse shift then yields `'o'`, not `'ñ'`. -/
theorem C1_counterexample :
    caesar_cipher (-3) (caesar_cipher 3 [0xF1]) ≠ [0xF1] := by decide

/-- C1 (amended): for every string of ASCII characters and every integer
shift k, applying caesar_cipher with shift k and then with shift -k
recovers the string. -/
theorem C1_roundtrip_ascii (k : Int) (s : List Nat) (h : ∀ c ∈ s, c < 128) :
    caesar_cipher (-k) (caesar_cipher k s) = s := by
  induction s with
  | nil => rfl
  | cons a t ih =>
      simp only [caesar_cipher, List.map_cons, List.map_map] at ih ⊢
      rw [caesarChar_roundtrip_ascii k a (h a (by simp)),
        ih (fun c hc => h c (by simp [hc]))]

/-- C1 (witness): the round trip at shift 3 on the ASCII string "Hola". -/
theorem C1_witness :
    (∀ c ∈ strCodes "Hola", c < 128) ∧
      caesar_cipher (-3) (caesar_cipher 3 (strCodes "Hola")) = strCodes "Hola" :=
  ⟨by decide, C1_roundtrip_ascii 3 (strCodes "Hola") (by decide)⟩

/-! ### C7: pass-through of non-letters and case preservation -/

/-- C7 (counterexample): the claim "each character that is not a letter of
the A-Z/a-z alphabet passes through the transform unchanged" fails at
`ñ` (U+00F1), which is outside A-Z/a-z yet is mapped to `'r'` (114) by
shift 3. -/
theorem C7_counterexample :
    isAsciiLetter 0xF1 = false ∧ caesarChar 3 0xF1 ≠ 0xF1 := by decide

/-- C7 (amended): every character that Python's `isalpha` rejects passes
through unchanged; every ASCII letter is shifted within its own case's
alphabet modulo 26, so uppercase stays uppercase and lowercase stays
lowercase. (Non-ASCII alphabetic characters do not pass through: see C9.) -/
theorem C7_passthrough_and_case (k : Int) :
    (∀ c, pyIsAlpha c = false → caesarChar k c = c) ∧
    (∀ c, isAsciiUpper c = true →
      caesarChar k c = (65 + ((c : Int) - 65 + k) % 26).toNat ∧
        isAsciiUpper (caesarChar k c) = true) ∧
    (∀ c, isAsciiLower c = true →
      caesarChar k c = (97 + ((c : Int) - 97 + k) % 26).toNat ∧
        isAsciiLower (caesarChar k c) = true) :=
  ⟨fun c h => caesarChar_not_alpha k c h,
   fun c h => ⟨caesarChar_upper k c h, caesarChar_upper_mem k c h⟩,
   fun c h => ⟨caesarChar_lower k c h, caesarChar_lower_mem k c h⟩⟩

/-- C7 (witness): at shift 3, a space passes through, `'Z'` stays an
uppercase letter, and `'a'` stays a lowercase letter. -/
theorem C7_witness :
    caesarChar 3 32 = 32 ∧ isAsciiUpper (caesarChar 3 90) = true ∧
      isAsciiLower (caesarChar 3 97) = true :=
  ⟨(C7_passthrough_and_case 3).1 32 (by decide),
   ((C7_passthrough_and_case 3).2.1 90 (by decide)).2,
   ((C7_passthrough_and_case 3).2.2 97 (by decide)).2⟩

/-! ### C9: alphabetic characters outside A-Z/a-z -/

/-- C9: for every character accepted by Python's `isalpha` but outside the
ASCII ranges A-Z and a-z, caesar_cipher still shifts from the ASCII base,
so the output is always an ASCII letter and the original character is not
preserved. -/
theorem C9_nonascii_mapped_to_ascii (k : Int) (c : Nat)
    (ha : pyIsAlpha c = true) (hn : isAsciiLetter c = false) :
    isAsciiLetter (caesarChar k c) = true ∧ caesarChar k c ≠ c := by
  simp only [caesarChar, ha, if_true]
  by_cases hu : pyIsUpper c = true
  · simp only [hu, if_true]
    simp [isAsciiLetter, isAsciiUpper, isAsciiLower] at hn ⊢
    omega
  · simp only [Bool.not_eq_true] at hu
    simp only [hu, Bool.false_eq_true, if_false]
    simp [isAsciiLetter, isAsciiUpper, isAsciiLower] at hn ⊢
    omega

/-- C9 (witness): `ñ` (U+00F1) at shift 3 becomes the ASCII letter `'r'`. -/
theorem C9_witness :
    isAsciiLetter (caesarChar 3 0xF1) = true ∧ caesarChar 3 0xF1 ≠ 0xF1 :=
  C9_nonascii_mapped_to_ascii 3 0xF1 (by decide) (by decide)

/-! ### Helper lemmas about dictionaries -/

theorem find?_map_set (t : Dict) (k k2 : String) (v : JValue) (h : k2 ≠ k) :
    (t.map (fun p => if p.1 == k then (k, v) else p)).find? (fun p => p.1 == k2)
      = t.find? (fun p => p.1 == k2) := by
  induction t with
  | nil => rfl
  | cons p t ih =>
      by_cases hp : p.1 = k
      · have h1 : (p.1 == k) = true := by simp [hp]
        have h2 : ((k, v).1 == k2) = false := by simp [Ne.symm h]
        have h3 : (p.1 == k2) = false := by simp [hp, Ne.symm h]
        simp only [List.map_cons, h1, if_true, List.find?_cons, h2, h3]
        exact ih
      · have h1 : (p.1 == k) = false := by simp [hp]
        simp only [List.map_cons, h1, Bool.false_eq_true, if_false, List.find?_cons]
        by_cases hq : p.1 = k2
        · simp [hq]
        · have h3 : (p.1 == k2) = false := by simp [hq]
          simp only [h3]
          exact ih

theorem find?_append_set (t : Dict) (k k2 : String) (v : JValue) (h : k2 ≠ k) :
    (t ++ [(k, v)]).find? (fun p => p.1 == k2) = t.find? (fun p => p.1 == k2) := by
  induction t with
  | nil =>
      have h2 : ((k, v).1 == k2) = false := by simp [Ne.symm h]
      simp [List.find?_cons, h2, List.find?]
  | cons p t ih =>
      by_cases hq : p.1 = k2
      · simp [List.find?_cons, hq]
      · have h3 : (p.1 == k2) = false := by simp [hq]
        simp only [List.cons_append, List.find?_cons, h3]
        exact ih

theorem dictGet_dictSet_ne (d : Dict) (k : String) (v : JValue) (k2 : String)
    (h : k2 ≠ k) : dictGet (dictSet d k v) k2 = dictGet d k2 := by
  unfold dictSet
  split
  · unfold dictGet
    rw [find?_map_set d k k2 v h]
  · unfold dictGet
    rw [find?_append_set d k k2 v h]

/-! ### C10: the frame of process_message -/

/-- C10: process_message changes only the keys `original_message`,
`encrypted_message`, `status`, `processed_at` and `cipher_shift`; every
other key of the input payload keeps its original value in the returned
payload. -/
theorem C10_frame (shift : Int) (now : List Nat) (payload d : Dict)
    (hp : process_message shift now payload = some d) (k : String)
    (hk : k ∉ ["original_message", "encrypted_message", "status",
      "processed_at", "cipher_shift"]) :
    dictGet d k = dictGet payload k := by
  simp only [List.mem_cons, List.not_mem_nil, or_false, not_or] at hk
  obtain ⟨hk1, hk2, hk3, hk4, hk5⟩ := hk
  cases hv : (dictGet payload "message").getD (JValue.jstr []) with
  | jstr original =>
      simp only [process_message, hv, Option.some.injEq] at hp
      subst hp
      rw [dictGet_dictSet_ne _ _ _ _ hk5, dictGet_dictSet_ne _ _ _ _ hk4,
        dictGet_dictSet_ne _ _ _ _ hk3, dictGet_dictSet_ne _ _ _ _ hk2,
        dictGet_dictSet_ne _ _ _ _ hk1]
  | jint n => exact absurd hp (by simp [process_message, hv])
  | jbool b => exact absurd hp (by simp [process_message, hv])
  | jnull => exact absurd hp (by simp [process_message, hv])

/-- C10 (witness): processing `payloadW` keeps its `timestamp` value. -/
theorem C10_witness :
    dictGet processedW "timestamp" = dictGet payloadW "timestamp" :=
  C10_frame 3 (strCodes "now") payloadW processedW (by rfl) "timestamp" (by decide)

/-! ### C2: poison messages are deleted, not counted -/

/-- C2: when the received message's body fails JSON deserialization, the
consumer skips the transform (it returns no processed payload), issues a
delete for that message's receipt token, and `processed_count` is not
incremented. -/
theorem C2_poison_deleted (shift : Int) (now : List Nat) (m : RawMessage)
    (rest : List RawMessage) (delOk : Bool) (count : Nat)
    (hm : m.body = .malformed) :
    consume_message shift now ⟨.messages (m :: rest), delOk⟩ count
      = ⟨.ret none, count, [m.receipt]⟩ := by
  simp [consume_message, hm]

/-- C2 (witness): one malformed message with receipt 9 is deleted and the
count stays 0. -/
theorem C2_witness :
    consume_message 3 (strCodes "now") envMalformed 0 = ⟨.ret none, 0, [9]⟩ :=
  C2_poison_deleted 3 (strCodes "now") ⟨.malformed, 9⟩ [] true 0 rfl

/-! ### C3: the acknowledge step and processed_count -/

theorem consume_count_of_ret_none (shift : Int) (now : List Nat) (env : IterEnv)
    (count : Nat) (h : (consume_message shift now env count).res = .ret none) :
    (consume_message shift now env count).count = count := by
  obtain ⟨recv, delOk⟩ := env
  cases recv with
  | clientError => rfl
  | messages ms =>
    cases ms with
    | nil => rfl
    | cons m rest =>
      cases hb : m.body with
      | malformed => simp [consume_message, hb]
      | valid payload =>
        cases hpm : process_message shift now payload with
        | none => simp [consume_message, hb, hpm] at h
        | some processed =>
          cases delOk with
          | true => simp [consume_message, hb, hpm] at h
          | false => simp [consume_message, hb, hpm]

/-- C3 (counterexample): the claim "a delete failure does not terminate the
loop in both continuous and single-run mode" fails in single-run mode: with
a second iteration still available in the environment, a run in which the
first message's delete fails ends immediately (`consume_message` returns
`None`, which `start` treats as the no-message case), after one receive
call and zero processed messages. -/
theorem C3_counterexample :
    runWorker 3 (strCodes "now") false none [envDelFail, envGood] 0 0
      = ⟨0, 1, .noMessages⟩ := by decide

/-- C3 (amended): after a successful delete `processed_count` increases by
exactly 1; a failed delete leaves `processed_count` unchanged and makes
`consume_message` return `None`; in continuous mode the loop then proceeds
to the next iteration. (In single-run mode the `None` result ends the run,
exactly as the no-message case does: see the counterexample.) -/
theorem C3_ack_effects (shift : Int) (now : List Nat) :
    (∀ (env : IterEnv) (count : Nat) (m : RawMessage) (rest : List RawMessage)
      (payload processed : Dict), env.recv = .messages (m :: rest) →
      m.body = .valid payload → process_message shift now payload = some processed →
      env.delOk = true →
      consume_message shift now env count
        = ⟨.ret (some processed), count + 1, [m.receipt]⟩) ∧
    (∀ (env : IterEnv) (count : Nat) (m : RawMessage) (rest : List RawMessage)
      (payload processed : Dict), env.recv = .messages (m :: rest) →
      m.body = .valid payload → process_message shift now payload = some processed →
      env.delOk = false →
      consume_message shift now env count = ⟨.ret none, count, [m.receipt]⟩) ∧
    (∀ (maxMessages : Option Nat) (env : IterEnv) (rest : List IterEnv)
      (count receives : Nat), limitHit maxMessages count = false →
      (consume_message shift now env count).res = .ret none →
      runWorker shift now true maxMessages (env :: rest) count receives
        = runWorker shift now true maxMessages rest count (receives + 1)) := by
  refine ⟨?_, ?_, ?_⟩
  · rintro ⟨recv, delOk⟩ count m rest payload processed hr hb hpm hd
    simp only at hr hd
    subst hr hd
    simp [consume_message, hb, hpm]
  · rintro ⟨recv, delOk⟩ count m rest payload processed hr hb hpm hd
    simp only at hr hd
    subst hr hd
    simp [consume_message, hb, hpm]
  · intro maxMessages env rest count receives hl hr
    have hc := consume_count_of_ret_none shift now env count hr
    simp only [runWorker, hl, Bool.false_eq_true, if_false]
    split
    · simp_all
    · simp_all [resTruthy]

/-- C3 (witness): a successful delete takes the count from 0 to 1; a failed
delete leaves it at 0; and in continuous mode the loop after a failed
delete is the loop over the rest of the script. -/
theorem C3_witness :
    consume_message 3 (strCodes "now") envGood 0
        = ⟨.ret (some processedW), 1, [8]⟩ ∧
      consume_message 3 (strCodes "now") envDelFail 0 = ⟨.ret none, 0, [7]⟩ ∧
      runWorker 3 (strCodes "now") true none [envDelFail] 0 0
        = runWorker 3 (strCodes "now") true none [] 0 1 :=
  ⟨(C3_ack_effects 3 (strCodes "now")).1 envGood 0 ⟨.valid payloadW, 8⟩ []
      payloadW processedW rfl rfl (by rfl) rfl,
   (C3_ack_effects 3 (strCodes "now")).2.1 envDelFail 0 ⟨.valid payloadW, 7⟩ []
      payloadW processedW rfl rfl (by rfl) rfl,
   (C3_ack_effects 3 (strCodes "now")).2.2 none envDelFail [] 0 0 rfl (by rfl)⟩

/-! ### C4: the max_messages cutoff -/

theorem consume_count_le (shift : Int) (now : List Nat) (env : IterEnv)
    (count : Nat) :
    (consume_message shift now env count).count ≤ count + 1 := by
  obtain ⟨recv, delOk⟩ := env
  cases recv with
  | clientError => simp [consume_message]
  | messages ms =>
    cases ms with
    | nil => simp [consume_message]
    | cons m rest =>
      cases hb : m.body with
      | malformed => simp [consume_message, hb]
      | valid payload =>
        cases hpm : process_message shift now payload with
        | none => simp [consume_message, hb, hpm]
        | some processed =>
          cases delOk with
          | true => simp [consume_message, hb, hpm]
          | false => simp [consume_message, hb, hpm]

/-- C4 (counterexample): the claim fails at M = 0. `max_messages = 0` is
falsy in the guard `if max_messages and processed_count >= max_messages`,
so the cutoff is ignored: a worker started with `max_messages = 0` against
one available message still issues a receive call and acknowledges the
message, ending with `processed_count = 1` instead of stopping after 0
acknowledgments with no receive calls. -/
theorem C4_counterexample :
    runWorker 3 (strCodes "now") true (some 0) [envGood] 0 0
      = ⟨1, 1, .scriptEnd⟩ := by decide

/-- C4 (amended): for every cutoff M ≥ 1, in any run starting from
`processed_count ≤ M`: the count never exceeds M; whenever the run stops
because the cutoff was reached it has processed exactly M messages; and
once the count has reached M the worker stops at once, issuing no further
receive calls. (For M = 0 the cutoff is ignored: see the counterexample.) -/
theorem C4_cutoff (shift : Int) (now : List Nat) (M : Nat) (hM : 1 ≤ M)
    (continuous : Bool) (script : List IterEnv) (count receives : Nat)
    (hc : count ≤ M) :
    (runWorker shift now continuous (some M) script count receives).count ≤ M ∧
    ((runWorker shift now continuous (some M) script count receives).reason
        = .limitReached →
      (runWorker shift now continuous (some M) script count receives).count = M) ∧
    (count = M →
      runWorker shift now continuous (some M) script count receives
        = ⟨M, receives, .limitReached⟩) := by
  induction script generalizing count receives with
  | nil =>
      by_cases h : limitHit (some M) count = true
      · have hcm : M ≤ count := by
          simp [limitHit] at h
          omega
        have hce : count = M := le_antisymm hc hcm
        subst hce
        simp [runWorker, h]
      · have h2 : limitHit (some M) count = false := by simpa using h
        simp only [runWorker, h2, Bool.false_eq_true, if_false]
        refine ⟨hc, fun habs => absurd habs (by decide), fun hce => ?_⟩
        exfalso
        simp [limitHit, hce] at h2
        omega
  | cons env rest ih =>
      by_cases h : limitHit (some M) count = true
      · have hcm : M ≤ count := by
          simp [limitHit] at h
          omega
        have hce : count = M := le_antisymm hc hcm
        subst hce
        simp [runWorker, h]
      · have h2 : limitHit (some M) count = false := by simpa using h
        have hlt : count < M := by
          simp [limitHit] at h2
          exact h2 (by omega)
        have hout : (consume_message shift now env count).count ≤ M := by
          have := consume_count_le shift now env count
          omega
        simp only [runWorker, h2, Bool.false_eq_true, if_false]
        split
        · exact ⟨hout, fun habs => by simp at habs,
            fun hce => absurd hce (by omega)⟩
        · split
          · have := ih (consume_message shift now env count).count (receives + 1) hout
            exact ⟨this.1, this.2.1, fun hce => absurd hce (by omega)⟩
          · split
            · have := ih (consume_message shift now env count).count (receives + 1) hout
              exact ⟨this.1, this.2.1, fun hce => absurd hce (by omega)⟩
            · exact ⟨hout, fun habs => by simp at habs,
                fun hce => absurd hce (by omega)⟩

/-- C4 (witness): the cutoff invariants at M = 1 on a two-message script. -/
theorem C4_witness :
    (runWorker 3 (strCodes "now") true (some 1) [envGood, envGood] 0 0).count ≤ 1 ∧
      ((runWorker 3 (strCodes "now") true (some 1) [envGood, envGood] 0 0).reason
          = .limitReached →
        (runWorker 3 (strCodes "now") true (some 1) [envGood, envGood] 0 0).count
          = 1) ∧
      (0 = 1 →
        runWorker 3 (strCodes "now") true (some 1) [envGood, envGood] 0 0
          = ⟨1, 0, .limitReached⟩) :=
  C4_cutoff 3 (strCodes "now") 1 (by decide) true [envGood, envGood] 0 0 (by decide)

/-! ### C5: batch size capping -/

/-- C5 (counterexample): the claim "send_batch caps the number of entries
per batch call at 10, splitting larger inputs into multiple calls" fails
for an input of 11 messages: the single `send_message_batch` call the code
issues carries all 11 entries. -/
theorem C5_counterexample :
    ¬ ∀ call ∈ send_batch_calls (strCodes "now")
        (List.replicate 11 (strCodes "m")), call.length ≤ 10 := by decide

/-- C5 (amended): `send_batch` issues exactly one batch call containing one
entry per input message; it never chunks the input, so inputs beyond the
queue-service limit are submitted in a single over-sized request. -/
theorem C5_single_call (now : List Nat) (messages : List (List Nat)) :
    send_batch_calls now messages = [send_batch_entries now messages] ∧
      (send_batch_entries now messages).length = messages.length := by
  refine ⟨rfl, ?_⟩
  simp [send_batch_entries]

/-! ### C6: per-entry batch results -/

/-- C6 (counterexample): the claim "the result is never an empty result on
service error, and successful plus failed sizes sum to N" fails when the
batch call raises `ClientError`: for N = 1 the code returns `{}`, whose
successful and failed parts sum to 0, not 1. -/
theorem C6_counterexample :
    (send_batch (strCodes "now") (fun _ => .clientError)
          [strCodes "m"]).successful.length
        + (send_batch (strCodes "now") (fun _ => .clientError)
            [strCodes "m"]).failed.length ≠ 1 := by decide

/-- C6 (amended): when the `send_message_batch` call succeeds and the
service response accounts for exactly the submitted entry ids (every id in
either `Successful` or `Failed`, none in both), `send_batch` passes it
through, so the successful and failed sets are disjoint and their sizes sum
to N. On `ClientError` the code instead returns the empty result `{}`. -/
theorem C6_passthrough (now : List Nat) (messages : List (List Nat))
    (service : List BatchEntry → BatchCallOutcome) (resp : BatchResponse)
    (hs : service (send_batch_entries now messages) = .ok resp)
    (hperm : (resp.successful ++ resp.failed).Perm
      ((send_batch_entries now messages).map (fun e => e.id)))
    (hdisj : resp.successful.Disjoint resp.failed) :
    (send_batch now service messages).successful.length
        + (send_batch now service messages).failed.length = messages.length ∧
      (send_batch now service messages).successful.Disjoint
        (send_batch now service messages).failed := by
  simp only [send_batch, hs]
  constructor
  · have hlen := hperm.length_eq
    simp [send_batch_entries] at hlen
    simpa using hlen
  · exact hdisj

/-- C6 (witness): one message through a service that reports entry "0"
successful. -/
theorem C6_witness :
    (send_batch (strCodes "now") serviceW [strCodes "m"]).successful.length
        + (send_batch (strCodes "now") serviceW [strCodes "m"]).failed.length = 1 ∧
      (send_batch (strCodes "now") serviceW [strCodes "m"]).successful.Disjoint
        (send_batch (strCodes "now") serviceW [strCodes "m"]).failed :=
  C6_passthrough (strCodes "now") [strCodes "m"] serviceW ⟨["0"], []⟩ rfl
    (by decide) (by simp [List.Disjoint])

/-! ### C8: queue creation only on not-found -/

/-- C8: queue resolution returns a found queue unchanged; it calls
`create_queue` exactly when the lookup fails with the non-existent-queue
error code; and any other lookup error propagates to the caller with no
create call issued. -/
theorem C8_create_only_on_not_found (code createUrl url : String) :
    get_or_create_queue (.found url) createUrl = (.ok url, false) ∧
    get_or_create_queue (.err nonExistentQueueCode) createUrl
        = (.ok createUrl, true) ∧
    (code ≠ nonExistentQueueCode →
      get_or_create_queue (.err code) createUrl = (.error code, false)) :=
  ⟨rfl, by simp [get_or_create_queue],
   fun h => by simp [get_or_create_queue, h]⟩

/-- C8 (witness): an `AccessDenied` lookup error propagates and no queue is
created. -/
theorem C8_witness :
    get_or_create_queue (.err "AccessDenied") "c" = (.error "AccessDenied", false) :=
  (C8_create_only_on_not_found "AccessDenied" "c" "u").2.2 (by decide)

end SqsLab
